import Mathlib

/-!
Verification of the chat_api protocol core (src/chat_api).

This file gives a shallow embedding of the event model, the wire codec
(src/chat_api/parsing.py, src/chat_api/models.py), the request state
machine (src/chat_api/states/base.py, states/server.py, states/client.py)
and the relevant parts of the client/server facades
(src/chat_api/clients/server.py, clients/client.py), and proves or refutes
the testable properties stated for them.

Conventions of the embedding:
- Python mutable objects become immutable Lean states that every operation
  maps to a pair of an optional error and a next state.  A raised exception
  corresponds to a `some` error.  Because Python raises before or after
  mutating, the state component is returned even on failure so that the
  "state observable after a failed call" is expressible.
- Python dicts become association lists (`List (ID × _)`).  The only dict
  writes in the source are guarded by a membership check that raises on a
  hit, so appending a fresh key is extensionally the dict update.
- Python sets become `Finset`.
- The 128-bit uuid identifiers are embedded by their 16-byte value
  (`uuid.bytes`), which the uuid library maps bijectively to a UUID.
- Python numbers: `int` is `Int`; `float` values are carried as `Rat`
  (IEEE rounding and the non-finite values are outside the scope of the
  properties proved here).
-/

namespace ChatApi

/-- A 128-bit identifier, embedded by its 16-byte representation
(`uuid.bytes` in models.py: `ID = UUID`). -/
def ID := { l : List Nat // l.length = 16 }

instance : DecidableEq ID := fun a b =>
  decidable_of_iff (a.val = b.val) Subtype.ext_iff.symm

/-- enums.py `InputMode` (AUDIO = 0, TEXT = 1). -/
inductive InputMode where
  | audio
  | text
deriving DecidableEq

/-- enums.py `InterruptType` (USER = 0, SYSTEM = 1). -/
inductive InterruptType where
  | user
  | system
deriving DecidableEq

/-- models.py `Config`: client->server configuration for a request session. -/
structure Config where
  chat_id : Option ID
  input_mode : InputMode
  silence_duration : Rat
  nchannels : Int
  sample_rate : Int
  sample_width : Int
  output_text : Bool
  output_audio : Bool
  output_video : Bool
deriving DecidableEq

/-- models.py `OutputStage`: stage descriptor (id, optional parent, title,
description). -/
structure Stage where
  id : ID
  parent_id : Option ID
  title : String
  description : String
deriving DecidableEq

/-- The kind-specific part of the four `OutputContent` subclasses in
models.py (`type` plus the kind parameters, both frozen at creation). -/
inductive ContentParams where
  | text
  | functionCall
  | audio (nchannels sample_rate sample_width : Int)
  | video (fps width height : Int)
deriving DecidableEq

/-- The data of an `OutputContent` instance as stored in the server
registry `_content_id_to_content` (states/server.py). -/
structure ContentV where
  id : ID
  stage_id : ID
  params : ContentParams
deriving DecidableEq

/-- The distinct failure modes of the state machine and the facades.
Each constructor corresponds to one raise site in the source; the
comments give the exception and message raised there.  The spec's
symbolic names for these errors are noted where they match. -/
inductive ChatErr where
  /-- ChatApiStateError "Request has been interrupted" (spec: Interrupted). -/
  | interrupted
  /-- ChatApiStateError "Request has already been interrupted"
  (spec: AlreadyInterrupted). -/
  | alreadyInterrupted
  /-- ChatApiStateError "Server is not ready" (spec: NotReady). -/
  | notReady
  /-- ChatApiStateError "Server already ready" (spec: AlreadyReady). -/
  | alreadyReady
  /-- ChatApiStateError "Input has not been ended". -/
  | inputNotEnded
  /-- ChatApiStateError "Input has already been ended"
  (spec: InputAlreadyEnded). -/
  | inputAlreadyEnded
  /-- ChatApiStateError "Output has already been ended"
  (spec: OutputAlreadyEnded). -/
  | outputAlreadyEnded
  /-- ChatApiStateError "Stage with id ... already sent" (spec: DuplicateId
  for stages). -/
  | duplicateStageId
  /-- ChatApiStateError "Circular stage relationship detected ..."
  (spec: CircularHierarchy). -/
  | circularHierarchy
  /-- ChatApiStateError "Content with id ... already sent" (spec:
  DuplicateId for contents). -/
  | duplicateContentId
  /-- ChatApiStateError "Content with id ... not found"
  (spec: UnknownReference). -/
  | unknownContent
  /-- ChatApiStateError "Content with id ... already has data"
  (spec: AlreadyAssociated). -/
  | alreadyHasData
  /-- ChatApiStateError "All content must have data before ending the
  output." (spec: IncompleteContent). -/
  | incompleteContent
  /-- ChatApiStateError "Text already sent. ..." (spec: TextAlreadySent). -/
  | textAlreadySent
  /-- ChatApiStateError "Input mode is not text" (spec: WrongInputMode). -/
  | wrongInputModeText
  /-- ChatApiStateError "Input mode is not audio" (spec: WrongInputMode). -/
  | wrongInputModeAudio
  /-- ChatApiStateError "Session has already been ended". -/
  | sessionAlreadyEnded
  /-- A Python `KeyError` escaping `self._stage_id_to_stage[current]` in
  `ServerRequestState.stage` (states/server.py line 75): not a
  ChatApiStateError at all.  Carries the missing key. -/
  | keyError (missing : ID)
  /-- Python `ValueError` raised by the facade content helpers when the
  kind parameters are missing (spec: MissingRequiredParameters). -/
  | missingRequiredParameters
deriving DecidableEq

/-- The result of one state-machine call: an optional raised error plus
the state the object holds afterwards (Python mutates in place, so the
post state is meaningful also when an exception is raised). -/
abbrev StepRes (σ : Type) := Option ChatErr × σ

/-- The fields of states/base.py `RequestState` together with the
registries of states/server.py `ServerRequestState` (dataclass
inheritance flattened). -/
structure ServerState where
  _config : Option Config
  _ready : Bool
  _input_end : Bool
  _interrupt : Bool
  _output_end : Bool
  _session_end : Bool
  _stage_id_to_stage : List (ID × Stage)
  _content_id_to_content : List (ID × ContentV)
  _content_ids_with_data : Finset ID
deriving DecidableEq

namespace ServerState

/-- A freshly constructed `ServerRequestState()` (all dataclass defaults). -/
def init : ServerState :=
  ⟨none, false, false, false, false, false, [], [], ∅⟩

/-- states/base.py `RequestState.ready`. -/
def ready (s : ServerState) (config : Config) : StepRes ServerState :=
  if s._interrupt then (some .interrupted, s)
  else if s._ready then (some .alreadyReady, s)
  else (none, { s with _config := some config, _ready := true })

/-- states/base.py `RequestState.end_input`. -/
def end_input (s : ServerState) : StepRes ServerState :=
  if s._interrupt then (some .interrupted, s)
  else if !s._ready then (some .notReady, s)
  else if s._input_end then (some .inputAlreadyEnded, s)
  else (none, { s with _input_end := true })

/-- states/base.py `RequestState.interrupt` (the `super().interrupt()`
part of the server override). -/
def interrupt_base (s : ServerState) : StepRes ServerState :=
  if s._interrupt then (some .alreadyInterrupted, s)
  else (none, { s with _interrupt := true })

/-- states/server.py `ServerRequestState.interrupt`: base interrupt, then
clear the three registries.  If the base call raises, the clearing is not
reached. -/
def interrupt (s : ServerState) : StepRes ServerState :=
  match interrupt_base s with
  | (some e, s1) => (some e, s1)
  | (none, s1) =>
      (none, { s1 with _stage_id_to_stage := [],
                       _content_id_to_content := [],
                       _content_ids_with_data := ∅ })

/-- states/base.py `RequestState.end_output` (the `super().end_output()`
part of the server override): guards, then set the output-ended flag. -/
def end_output_base (s : ServerState) : StepRes ServerState :=
  if s._interrupt then (some .interrupted, s)
  else if !s._input_end then (some .inputNotEnded, s)
  else if s._output_end then (some .outputAlreadyEnded, s)
  else (none, { s with _output_end := true })

/-- states/base.py `RequestState.end_session`. -/
def end_session (s : ServerState) : StepRes ServerState :=
  if s._session_end then (some .sessionAlreadyEnded, s)
  else (none, { s with _session_end := true })

/-- states/base.py `RequestState.reset` (the `super().reset()` part of the
server override): keeps `_config` and `_ready`, clears the input / interrupt
/ output flags. -/
def reset_base (s : ServerState) : StepRes ServerState :=
  if s._session_end then (some .sessionAlreadyEnded, s)
  else (none, { s with _input_end := false, _interrupt := false,
                       _output_end := false })

/-- states/server.py `ServerRequestState.reset`: base reset, then clear the
three registries and set `_output_end := false` (again). -/
def reset (s : ServerState) : StepRes ServerState :=
  match reset_base s with
  | (some e, s1) => (some e, s1)
  | (none, s1) =>
      (none, { s1 with _stage_id_to_stage := [],
                       _content_id_to_content := [],
                       _content_ids_with_data := ∅,
                       _output_end := false })

/-- states/server.py `ServerRequestState.transcription`: validation only,
no mutation. -/
def transcription (s : ServerState) : StepRes ServerState :=
  if s._interrupt then (some .interrupted, s)
  else if !s._ready then (some .notReady, s)
  else if (match s._config with
           | some c => decide (c.input_mode ≠ InputMode.audio)
           | none => false) then (some .wrongInputModeAudio, s)
  else if s._output_end then (some .outputAlreadyEnded, s)
  else (none, s)

/-- The `while current is not None` walk of
`ServerRequestState.stage` (states/server.py lines 66-75).  Each completed
iteration adds `current` to `visited` and then looks the node up in the
registry; a missing key is a Python `KeyError`.  The fuel argument only
bounds the recursion: every completed iteration's node is a distinct
registry key, so the walk always exits within `|registry| + 1` iterations
and the fuel-exhausted branch is unreachable from the call site. -/
def stageWalk (reg : List (ID × Stage)) :
    List ID → Option ID → Nat → Option ChatErr
  | _, none, _ => none
  | visited, some current, fuel + 1 =>
      if current ∈ visited then some .circularHierarchy
      else
        match reg.lookup current with
        | none => some (.keyError current)
        | some parent => stageWalk reg (visited ++ [current]) parent.parent_id fuel
  | _, some _, 0 => some .circularHierarchy

/-- states/server.py `ServerRequestState.stage`. -/
def stage (s : ServerState) (st : Stage) : StepRes ServerState :=
  if s._interrupt then (some .interrupted, s)
  else if !s._input_end then (some .inputNotEnded, s)
  else if s._output_end then (some .outputAlreadyEnded, s)
  else if (s._stage_id_to_stage.lookup st.id).isSome then
    (some .duplicateStageId, s)
  else
    match stageWalk s._stage_id_to_stage [] st.parent_id
        (s._stage_id_to_stage.length + 1) with
    | some e => (some e, s)
    | none =>
        (none, { s with
                  _stage_id_to_stage := s._stage_id_to_stage ++ [(st.id, st)] })

/-- states/server.py `ServerRequestState.has_content` (lookup by id). -/
def has_content (s : ServerState) (content_id : ID) : Option ContentV :=
  s._content_id_to_content.lookup content_id

/-- states/server.py `ServerRequestState.content`. -/
def content (s : ServerState) (c : ContentV) : StepRes ServerState :=
  if s._interrupt then (some .interrupted, s)
  else if !s._input_end then (some .inputNotEnded, s)
  else if s._output_end then (some .outputAlreadyEnded, s)
  else if (s.has_content c.id).isSome then (some .duplicateContentId, s)
  else
    (none, { s with
              _content_id_to_content := s._content_id_to_content ++ [(c.id, c)] })

/-- states/server.py `ServerRequestState.content_addition`: validation
only, no mutation. -/
def content_addition (s : ServerState) (content_id : ID) : StepRes ServerState :=
  if s._interrupt then (some .interrupted, s)
  else if !s._input_end then (some .inputNotEnded, s)
  else if s._output_end then (some .outputAlreadyEnded, s)
  else if !(s.has_content content_id).isSome then (some .unknownContent, s)
  else (none, s)

/-- states/server.py `ServerRequestState.function_call` (takes the
`content_id` field of the OutputFunctionCall event; its `data` is not
consulted). -/
def function_call (s : ServerState) (content_id : ID) : StepRes ServerState :=
  if s._interrupt then (some .interrupted, s)
  else if !s._input_end then (some .inputNotEnded, s)
  else if s._output_end then (some .outputAlreadyEnded, s)
  else if !(s.has_content content_id).isSome then (some .unknownContent, s)
  else if content_id ∈ s._content_ids_with_data then (some .alreadyHasData, s)
  else
    (none, { s with
              _content_ids_with_data := insert content_id s._content_ids_with_data })

/-- states/server.py `ServerRequestState.text` (takes the `content_id`
field of the OutputText event).  Note: no already-has-data check; the set
insert is idempotent. -/
def text (s : ServerState) (content_id : ID) : StepRes ServerState :=
  if s._interrupt then (some .interrupted, s)
  else if !s._input_end then (some .inputNotEnded, s)
  else if s._output_end then (some .outputAlreadyEnded, s)
  else if !(s.has_content content_id).isSome then (some .unknownContent, s)
  else
    (none, { s with
              _content_ids_with_data := insert content_id s._content_ids_with_data })

/-- states/server.py `ServerRequestState.media` (takes the `content_id`
field of the OutputMedia event). -/
def media (s : ServerState) (content_id : ID) : StepRes ServerState :=
  if s._interrupt then (some .interrupted, s)
  else if !s._input_end then (some .inputNotEnded, s)
  else if s._output_end then (some .outputAlreadyEnded, s)
  else if !(s.has_content content_id).isSome then (some .unknownContent, s)
  else
    (none, { s with
              _content_ids_with_data := insert content_id s._content_ids_with_data })

/-- states/server.py `ServerRequestState.end_output`: run the base
`end_output` (which sets `_output_end := true`), then compare
`len(self._content_ids_with_data)` with `len(self._content_id_to_content)`;
on mismatch set `_output_end := false` and re-raise. -/
def end_output (s : ServerState) : StepRes ServerState :=
  match end_output_base s with
  | (some e, s1) => (some e, s1)
  | (none, s1) =>
      if s1._content_ids_with_data.card ≠ s1._content_id_to_content.length then
        (some .incompleteContent, { s1 with _output_end := false })
      else (none, s1)

end ServerState

/-- The fields of states/base.py `RequestState` together with the `_text`
flag of states/client.py `ClientRequestState`. -/
structure ClientState where
  _config : Option Config
  _ready : Bool
  _input_end : Bool
  _interrupt : Bool
  _output_end : Bool
  _session_end : Bool
  _text : Bool
deriving DecidableEq

namespace ClientState

/-- A freshly constructed `ClientRequestState()`. -/
def init : ClientState := ⟨none, false, false, false, false, false, false⟩

/-- states/base.py `RequestState.ready` on the client-side state. -/
def ready (s : ClientState) (config : Config) : StepRes ClientState :=
  if s._interrupt then (some .interrupted, s)
  else if s._ready then (some .alreadyReady, s)
  else (none, { s with _config := some config, _ready := true })

/-- states/client.py `ClientRequestState.text`: single-shot input text,
gated on TEXT input mode.  (`if self._config and self._config.input_mode
!= InputMode.TEXT` — a missing config passes the gate.) -/
def text (s : ClientState) : StepRes ClientState :=
  if s._interrupt then (some .interrupted, s)
  else if !s._ready then (some .notReady, s)
  else if s._input_end then (some .inputAlreadyEnded, s)
  else if (match s._config with
           | some c => decide (c.input_mode ≠ InputMode.text)
           | none => false) then (some .wrongInputModeText, s)
  else if s._text then (some .textAlreadySent, s)
  else (none, { s with _text := true })

/-- states/client.py `ClientRequestState.media`: validation only. -/
def media (s : ClientState) : StepRes ClientState :=
  if s._interrupt then (some .interrupted, s)
  else if !s._ready then (some .notReady, s)
  else if s._input_end then (some .inputAlreadyEnded, s)
  else if (match s._config with
           | some c => decide (c.input_mode ≠ InputMode.audio)
           | none => false) then (some .wrongInputModeAudio, s)
  else (none, s)

end ClientState

/-!
Server facade (clients/server.py `Server`).  The transport hand-off has no
effect on the request state, so only the state-machine calls are modelled.
`openStreams` is instrumentation for the spec's notion of an open stream:
`audio_stream` / `video_stream` / `text_stream` create a `SendStreamHandle`
(stream opened) and the handle's `end` closure (streaming.py /
clients/server.py) performs no state-machine call at all — it returns
`(None, None)` — so ending a stream (stream closed) changes nothing in
`ServerRequestState`.  The field records which handles have been created
and not yet ended; no code in the repository reads it back.
-/
structure ServerFacade where
  st : ServerState
  openStreams : List ID
deriving DecidableEq

namespace ServerFacade

/-- A freshly constructed `Server` (fresh `ServerRequestState`, no open
handles). -/
def init : ServerFacade := ⟨ServerState.init, []⟩

/-- Lift a pure state-machine call to the facade. -/
def liftSt (f : ServerState → StepRes ServerState) (g : ServerFacade) :
    StepRes ServerFacade :=
  match f g.st with
  | (e, s1) => (e, { g with st := s1 })

/-- clients/server.py `Server.ready`: assign `config.chat_id` if absent
(`config.chat_id or self.new_uuid()`), then `state.ready(config)`.  The
generated uuid is passed in as `fresh`. -/
def ready (g : ServerFacade) (config : Config) (fresh : ID) : StepRes ServerFacade :=
  liftSt (fun s => s.ready { config with
            chat_id := some (config.chat_id.getD fresh) }) g

/-- clients/base.py `Base.end_input`. -/
def end_input (g : ServerFacade) : StepRes ServerFacade :=
  liftSt ServerState.end_input g

/-- clients/server.py `Server.stage` (state call, then send). -/
def stage (g : ServerFacade) (st : Stage) : StepRes ServerFacade :=
  liftSt (fun s => s.stage st) g

/-- clients/server.py `Server.audio_content`: if the content id is already
registered return it without re-sending; otherwise require the kind
parameters and register a new audio content.  The caller-supplied content
id is modelled as always provided (`content_id or new_uuid()` resolved by
the caller). -/
def audio_content (g : ServerFacade) (stage_id : ID)
    (nchannels sample_rate sample_width : Int) (content_id : ID) :
    StepRes ServerFacade :=
  match g.st.has_content content_id with
  | some _ => (none, g)
  | none =>
      liftSt (fun s => s.content
        ⟨content_id, stage_id, .audio nchannels sample_rate sample_width⟩) g

/-- clients/server.py `Server.audio_stream`: ensure the audio content,
then build a `SendStreamHandle` via `_prepare_media_stream` (stream
opened).  On a state-machine failure the exception propagates and no
handle is created. -/
def audio_stream (g : ServerFacade) (stage_id : ID)
    (nchannels sample_rate sample_width : Int) (content_id : ID) :
    StepRes ServerFacade :=
  match audio_content g stage_id nchannels sample_rate sample_width content_id with
  | (some e, g1) => (some e, g1)
  | (none, g1) => (none, { g1 with openStreams := content_id :: g1.openStreams })

/-- The `send` closure of `_prepare_media_stream` (clients/server.py):
`state.media(evt)` then the binary transport send. -/
def media_send (g : ServerFacade) (content_id : ID) : StepRes ServerFacade :=
  liftSt (fun s => s.media content_id) g

/-- The handle's `end` closure (clients/server.py): returns `(None, None)`
and performs no state-machine call; the handle stops being open. -/
def stream_end (g : ServerFacade) (content_id : ID) : StepRes ServerFacade :=
  (none, { g with openStreams := g.openStreams.erase content_id })

/-- clients/server.py `Server.end_output`: `state.end_output()` then
`state.reset()`, then send the OutputEnd event.  A failure in
`end_output` propagates before the reset. -/
def end_output (g : ServerFacade) : StepRes ServerFacade :=
  match g.st.end_output with
  | (some e, s1) => (some e, { g with st := s1 })
  | (none, s1) =>
      match s1.reset with
      | (e, s2) => (e, { g with st := s2 })

end ServerFacade

/-!
Event model and wire codec (models.py, parsing.py).

Text frames are JSON; we embed the JSON value produced by
`model_dump_json` / consumed by `json.loads` structurally.  Numbers keep
Python's int/float distinction (`int` vs `num`); float values are carried
as rationals.  A JSON string holding the RFC 4122 text form of a UUID is
embedded as `uuid` carrying the 16-byte value: the uuid standard library
converts losslessly between the text form and the bytes, and no code in
this repository manipulates the text form itself.
-/
inductive Json where
  | null
  | bool (b : Bool)
  | int (n : Int)
  | num (q : Rat)
  | str (s : String)
  | uuid (i : ID)
  | arr (elems : List Json)
  | obj (fields : List (String × Json))

/-- The failure modes of parsing.py (`ValueError`s) and of pydantic
validation. -/
inductive DecodeErr where
  /-- ValueError "Event must not be empty" (spec: EmptyFrame). -/
  | emptyFrame
  /-- ValueError "Missing event_type in text payload"
  (spec: MissingDiscriminant). -/
  | missingEventType
  /-- ValueError "Unknown event_type: ..." (spec: UnknownDiscriminant). -/
  | unknownEventType (n : Int)
  /-- pydantic ValidationError from `cls.model_validate(payload)`
  (spec: MalformedPayload). -/
  | malformed
  /-- ValueError from `UUID(bytes=blob[:16])` when the frame holds fewer
  than 16 bytes. -/
  | shortUuidBytes
  /-- The JSON (text-frame) form of the two media chunk events converts
  `bytes` through utf-8; their wire encoding is the binary framing and the
  JSON path is not modelled. -/
  | unmodeledMediaText
deriving DecidableEq

/-- models.py `Word`. -/
structure Word where
  text : Option String
  start : Option Rat
  «end» : Option Rat
  speaker : Option String
  score : Option Rat
deriving DecidableEq

/-- models.py `Segment` (inherits the `Word` fields, adds `words`). -/
structure Segment where
  text : Option String
  start : Option Rat
  «end» : Option Rat
  speaker : Option String
  score : Option Rat
  words : Option (List Word)
deriving DecidableEq

/-- models.py `Transcription` (`speaker_embeddings` is a string-keyed
dict of float lists, embedded as an association list). -/
structure Transcription where
  segments : List Segment
  language : Option String
  speaker_embeddings : Option (List (String × List Rat))
deriving DecidableEq

/-- The closed sum of every event variant of models.py, one constructor
per concrete pydantic class registered in parsing.py's
`_EVENT_CLASS_BY_TYPE`.  The `event_type` and `type` discriminants are
frozen per class and live in the codec, not here. -/
inductive Event where
  | config (c : Config)
  | inputText (data : String)
  | inputMedia (data : List Nat)
  | inputEnd
  | interrupt (interrupt_type : InterruptType)
  | serverReady (chat_id request_id : ID)
  | outputTranscription (transcription : Transcription)
  | outputStage (stage : Stage)
  | outputTextContent (id stage_id : ID)
  | outputFunctionCallContent (id stage_id : ID)
  | outputAudioContent (id stage_id : ID) (nchannels sample_rate sample_width : Int)
  | outputVideoContent (id stage_id : ID) (fps width height : Int)
  | outputContentAddition (content_id : ID) (metadata : List (String × Json))
  | outputText (content_id : ID) (data : String)
  | outputMedia (content_id : ID) (data : List Nat)
  | outputFunctionCall (content_id : ID) (data : String)
  | outputEnd
  | sessionEnd

/-- JSON form of an optional uuid field. -/
def jOfOptId : Option ID → Json
  | none => .null
  | some i => .uuid i

/-- JSON form of an optional string field. -/
def jOfOptStr : Option String → Json
  | none => .null
  | some s => .str s

/-- JSON form of an optional float field. -/
def jOfOptNum : Option Rat → Json
  | none => .null
  | some q => .num q

/-- enums.py `InputMode` serializes as its IntEnum value. -/
def jOfInputMode : InputMode → Json
  | .audio => .int 0
  | .text => .int 1

/-- enums.py `InterruptType` serializes as its IntEnum value. -/
def jOfInterruptType : InterruptType → Json
  | .user => .int 0
  | .system => .int 1

/-- Serialization of a `Word` (model_dump_json keeps `None` fields as
nulls). -/
def encodeWord (w : Word) : Json :=
  .obj [("text", jOfOptStr w.text), ("start", jOfOptNum w.start),
        ("end", jOfOptNum w.«end»), ("speaker", jOfOptStr w.speaker),
        ("score", jOfOptNum w.score)]

/-- Serialization of a `Segment`. -/
def encodeSegment (s : Segment) : Json :=
  .obj [("text", jOfOptStr s.text), ("start", jOfOptNum s.start),
        ("end", jOfOptNum s.«end»), ("speaker", jOfOptStr s.speaker),
        ("score", jOfOptNum s.score),
        ("words", match s.words with
          | none => .null
          | some ws => .arr (ws.map encodeWord))]

/-- Serialization of a `Transcription`. -/
def encodeTranscription (t : Transcription) : Json :=
  .obj [("segments", .arr (t.segments.map encodeSegment)),
        ("language", jOfOptStr t.language),
        ("speaker_embeddings", match t.speaker_embeddings with
          | none => .null
          | some kvs => .obj (kvs.map fun kv => (kv.1, .arr (kv.2.map Json.num))))]

/-- The JSON text-frame encoding of an event: `model_dump_json` as invoked
by `Transport.send_event` (transports/base.py line 61), with each class's
frozen `event_type` (and `type`) discriminant value.  The two media chunk
events are sent on the binary channel (`send_bytes`); their JSON form is
not part of the wire protocol, and is not modelled (`none`). -/
def encode_text_event : Event → Option Json
  | .config c => some (.obj
      [("event_type", .int 0), ("chat_id", jOfOptId c.chat_id),
       ("input_mode", jOfInputMode c.input_mode),
       ("silence_duration", .num c.silence_duration),
       ("nchannels", .int c.nchannels), ("sample_rate", .int c.sample_rate),
       ("sample_width", .int c.sample_width),
       ("output_text", .bool c.output_text),
       ("output_audio", .bool c.output_audio),
       ("output_video", .bool c.output_video)])
  | .inputText d => some (.obj [("event_type", .int 1), ("data", .str d)])
  | .inputMedia _ => none
  | .inputEnd => some (.obj [("event_type", .int 3)])
  | .interrupt t => some (.obj
      [("event_type", .int 4), ("interrupt_type", jOfInterruptType t)])
  | .serverReady cid rid => some (.obj
      [("event_type", .int 5), ("chat_id", .uuid cid), ("request_id", .uuid rid)])
  | .outputTranscription t => some (.obj
      [("event_type", .int 6), ("transcription", encodeTranscription t)])
  | .outputStage st => some (.obj
      [("event_type", .int 7), ("id", .uuid st.id),
       ("parent_id", jOfOptId st.parent_id), ("title", .str st.title),
       ("description", .str st.description)])
  | .outputTextContent i sid => some (.obj
      [("event_type", .int 8), ("id", .uuid i), ("type", .int 2),
       ("stage_id", .uuid sid)])
  | .outputFunctionCallContent i sid => some (.obj
      [("event_type", .int 9), ("id", .uuid i), ("type", .int 3),
       ("stage_id", .uuid sid)])
  | .outputAudioContent i sid n r w => some (.obj
      [("event_type", .int 10), ("id", .uuid i), ("type", .int 0),
       ("stage_id", .uuid sid), ("nchannels", .int n),
       ("sample_rate", .int r), ("sample_width", .int w)])
  | .outputVideoContent i sid f wd h => some (.obj
      [("event_type", .int 11), ("id", .uuid i), ("type", .int 1),
       ("stage_id", .uuid sid), ("fps", .int f), ("width", .int wd),
       ("height", .int h)])
  | .outputContentAddition cid md => some (.obj
      [("event_type", .int 12), ("content_id", .uuid cid),
       ("metadata", .obj md)])
  | .outputText cid d => some (.obj
      [("event_type", .int 13), ("content_id", .uuid cid), ("data", .str d)])
  | .outputMedia _ _ => none
  | .outputFunctionCall cid d => some (.obj
      [("event_type", .int 15), ("content_id", .uuid cid), ("data", .str d)])
  | .outputEnd => some (.obj [("event_type", .int 16)])
  | .sessionEnd => some (.obj [("event_type", .int 17)])

/-!
Decoding: parsing.py `parse_text_event` reads the `event_type`
discriminant and hands the payload to the matching class's
`model_validate`.  The per-field readers below model validation of the
canonical serialized form: a required field must be present with the
field's type; an optional field may be absent or null (pydantic then uses
the declared default).  Coercions pydantic additionally performs on
non-canonical payloads (e.g. `int(event_type)` on strings, int-to-float
widening) are outside the round-trip law and map to `malformed`.
-/

/-- Read an `Optional[ID] = None` field. -/
def readOptId : Option Json → Except DecodeErr (Option ID)
  | none => .ok none
  | some .null => .ok none
  | some (.uuid i) => .ok (some i)
  | some _ => .error .malformed

/-- Read a required ID field. -/
def readId : Option Json → Except DecodeErr ID
  | some (.uuid i) => .ok i
  | _ => .error .malformed

/-- Read a `str or None, default=None` field. -/
def readOptStr : Option Json → Except DecodeErr (Option String)
  | none => .ok none
  | some .null => .ok none
  | some (.str s) => .ok (some s)
  | some _ => .error .malformed

/-- Read a required str field. -/
def readStr : Option Json → Except DecodeErr String
  | some (.str s) => .ok s
  | _ => .error .malformed

/-- Read a `float or None, default=None` field. -/
def readOptNum : Option Json → Except DecodeErr (Option Rat)
  | none => .ok none
  | some .null => .ok none
  | some (.num q) => .ok (some q)
  | some _ => .error .malformed

/-- Read a float field with a default (Config.silence_duration). -/
def readNumD (d : Rat) : Option Json → Except DecodeErr Rat
  | none => .ok d
  | some (.num q) => .ok q
  | some _ => .error .malformed

/-- Read an int field with a default. -/
def readIntD (d : Int) : Option Json → Except DecodeErr Int
  | none => .ok d
  | some (.int n) => .ok n
  | some _ => .error .malformed

/-- Read a required int field. -/
def readInt : Option Json → Except DecodeErr Int
  | some (.int n) => .ok n
  | _ => .error .malformed

/-- Read a bool field with a default. -/
def readBoolD (d : Bool) : Option Json → Except DecodeErr Bool
  | none => .ok d
  | some (.bool b) => .ok b
  | some _ => .error .malformed

/-- Read Config's `input_mode` (IntEnum value, default TEXT). -/
def readInputMode : Option Json → Except DecodeErr InputMode
  | none => .ok .text
  | some (.int 0) => .ok .audio
  | some (.int 1) => .ok .text
  | some _ => .error .malformed

/-- Read Interrupt's required `interrupt_type` (IntEnum value). -/
def readInterruptType : Option Json → Except DecodeErr InterruptType
  | some (.int 0) => .ok .user
  | some (.int 1) => .ok .system
  | _ => .error .malformed

/-- Read ContentAddition's `metadata` (`Dict[str, Any]`, default `{}`). -/
def readMetadata : Option Json → Except DecodeErr (List (String × Json))
  | none => .ok []
  | some (.obj m) => .ok m
  | some _ => .error .malformed

/-- Elementwise validation of a list value: the first failure aborts
(pydantic validates a `list[...]` field elementwise). -/
def mapDecode (f : α → Except DecodeErr β) : List α → Except DecodeErr (List β)
  | [] => .ok []
  | x :: xs => do
      let b ← f x
      let bs ← mapDecode f xs
      .ok (b :: bs)

/-- Validate one `Word` payload. -/
def decodeWord : Json → Except DecodeErr Word
  | .obj f => do
      let t ← readOptStr (f.lookup "text")
      let st ← readOptNum (f.lookup "start")
      let en ← readOptNum (f.lookup "end")
      let sp ← readOptStr (f.lookup "speaker")
      let sc ← readOptNum (f.lookup "score")
      .ok ⟨t, st, en, sp, sc⟩
  | _ => .error .malformed

/-- Read Segment's `words` (`list[Word] or None, default=None`). -/
def readOptWords : Option Json → Except DecodeErr (Option (List Word))
  | none => .ok none
  | some .null => .ok none
  | some (.arr es) => do
      let ws ← mapDecode decodeWord es
      .ok (some ws)
  | some _ => .error .malformed

/-- Validate one `Segment` payload. -/
def decodeSegment : Json → Except DecodeErr Segment
  | .obj f => do
      let t ← readOptStr (f.lookup "text")
      let st ← readOptNum (f.lookup "start")
      let en ← readOptNum (f.lookup "end")
      let sp ← readOptStr (f.lookup "speaker")
      let sc ← readOptNum (f.lookup "score")
      let ws ← readOptWords (f.lookup "words")
      .ok ⟨t, st, en, sp, sc, ws⟩
  | _ => .error .malformed

/-- Validate a float-list value inside `speaker_embeddings`. -/
def readRatList : Json → Except DecodeErr (List Rat)
  | .arr es => mapDecode (fun e =>
      match e with
      | .num q => Except.ok q
      | _ => .error .malformed) es
  | _ => .error .malformed

/-- Read Transcription's `speaker_embeddings`
(`dict[str, list[float]] or None, default=None`). -/
def readEmbeddings :
    Option Json → Except DecodeErr (Option (List (String × List Rat)))
  | none => .ok none
  | some .null => .ok none
  | some (.obj kvs) => do
      let l ← mapDecode (fun kv => do
        let v ← readRatList kv.2
        Except.ok (kv.1, v)) kvs
      .ok (some l)
  | some _ => .error .malformed

/-- Validate a `Transcription` payload (`segments` is required). -/
def decodeTranscription : Option Json → Except DecodeErr Transcription
  | some (.obj f) => do
      let segs ← match f.lookup "segments" with
        | some (.arr es) => mapDecode decodeSegment es
        | _ => .error .malformed
      let lang ← readOptStr (f.lookup "language")
      let emb ← readEmbeddings (f.lookup "speaker_embeddings")
      .ok ⟨segs, lang, emb⟩
  | _ => .error .malformed

/-- Per-class `model_validate`, dispatched on the `event_type`
discriminant exactly as `_EVENT_CLASS_BY_TYPE` does in parsing.py.  The
frozen `type` discriminant of the content classes carries a default, so
validation does not require it; its value is ignored here as it is
determined by the class.  Unlisted discriminants fail like
`_EVENT_CLASS_BY_TYPE.get` returning `None`. -/
def decodeByType (n : Int) (f : List (String × Json)) : Except DecodeErr Event :=
  match n with
  | 0 => do
      let cid ← readOptId (f.lookup "chat_id")
      let im ← readInputMode (f.lookup "input_mode")
      let sd ← readNumD (-1) (f.lookup "silence_duration")
      let nc ← readIntD 1 (f.lookup "nchannels")
      let sr ← readIntD 16000 (f.lookup "sample_rate")
      let sw ← readIntD 2 (f.lookup "sample_width")
      let ot ← readBoolD true (f.lookup "output_text")
      let oa ← readBoolD true (f.lookup "output_audio")
      let ov ← readBoolD true (f.lookup "output_video")
      .ok (.config ⟨cid, im, sd, nc, sr, sw, ot, oa, ov⟩)
  | 1 => do
      let d ← readStr (f.lookup "data")
      .ok (.inputText d)
  | 2 => .error .unmodeledMediaText
  | 3 => .ok .inputEnd
  | 4 => do
      let t ← readInterruptType (f.lookup "interrupt_type")
      .ok (.interrupt t)
  | 5 => do
      let cid ← readId (f.lookup "chat_id")
      let rid ← readId (f.lookup "request_id")
      .ok (.serverReady cid rid)
  | 6 => do
      let t ← decodeTranscription (f.lookup "transcription")
      .ok (.outputTranscription t)
  | 7 => do
      let i ← readId (f.lookup "id")
      let pid ← readOptId (f.lookup "parent_id")
      let ti ← readStr (f.lookup "title")
      let de ← readStr (f.lookup "description")
      .ok (.outputStage ⟨i, pid, ti, de⟩)
  | 8 => do
      let i ← readId (f.lookup "id")
      let sid ← readId (f.lookup "stage_id")
      .ok (.outputTextContent i sid)
  | 9 => do
      let i ← readId (f.lookup "id")
      let sid ← readId (f.lookup "stage_id")
      .ok (.outputFunctionCallContent i sid)
  | 10 => do
      let i ← readId (f.lookup "id")
      let sid ← readId (f.lookup "stage_id")
      let nc ← readInt (f.lookup "nchannels")
      let sr ← readInt (f.lookup "sample_rate")
      let sw ← readInt (f.lookup "sample_width")
      .ok (.outputAudioContent i sid nc sr sw)
  | 11 => do
      let i ← readId (f.lookup "id")
      let sid ← readId (f.lookup "stage_id")
      let fp ← readInt (f.lookup "fps")
      let wd ← readInt (f.lookup "width")
      let he ← readInt (f.lookup "height")
      .ok (.outputVideoContent i sid fp wd he)
  | 12 => do
      let cid ← readId (f.lookup "content_id")
      let md ← readMetadata (f.lookup "metadata")
      .ok (.outputContentAddition cid md)
  | 13 => do
      let cid ← readId (f.lookup "content_id")
      let d ← readStr (f.lookup "data")
      .ok (.outputText cid d)
  | 14 => .error .unmodeledMediaText
  | 15 => do
      let cid ← readId (f.lookup "content_id")
      let d ← readStr (f.lookup "data")
      .ok (.outputFunctionCall cid d)
  | 16 => .ok .outputEnd
  | 17 => .ok .sessionEnd
  | _ => .error (.unknownEventType n)

/-- parsing.py `parse_text_event`: `payload.get("event_type")` (absent key
and a null value both give `None`, hence "Missing event_type"), then
dispatch through `_EVENT_CLASS_BY_TYPE`. -/
def parse_text_event : Json → Except DecodeErr Event
  | .obj fields =>
      match fields.lookup "event_type" with
      | none => .error .missingEventType
      | some .null => .error .missingEventType
      | some (.int n) => decodeByType n fields
      | some _ => .error .malformed
  | _ => .error .malformed

/-- models.py `OutputMedia.get_bytes`: the 16 raw uuid bytes followed by
the payload.  This is the server->client binary frame layout
(clients/server.py `_prepare_media_stream` sends
`transport.send_bytes(evt.get_bytes())`). -/
def outputMediaWireBytes (content_id : ID) (data : List Nat) : List Nat :=
  content_id.val ++ data

/-- The client->server binary frame layout: clients/client.py
`media_stream`'s send closure calls `transport.send_bytes(evt.data)` — the
payload alone, no identifier prefix. -/
def inputMediaWireBytes (data : List Nat) : List Nat := data

/-- parsing.py `parse_bytes_event`.  An empty blob raises ValueError; in
the uuid-parsing (server->client) direction, `UUID(bytes=blob[:16])`
raises ValueError unless given exactly 16 bytes. -/
def parse_bytes_event (blob : List Nat) (parse_media_uuid : Bool) :
    Except DecodeErr Event :=
  if blob.length = 0 then .error .emptyFrame
  else if parse_media_uuid then
    if h : blob.length < 16 then .error .shortUuidBytes
    else .ok (.outputMedia ⟨blob.take 16, by rw [List.length_take]; omega⟩
                (blob.drop 16))
  else .ok (.inputMedia blob)

/-!
The operations of `ServerRequestState` as a closed syntax, to quantify
over "every state-machine operation" and over operation sequences.
-/
inductive ServerOp where
  | ready (config : Config)
  | end_input
  | interrupt
  | end_output
  | end_session
  | reset
  | transcription
  | stage (st : Stage)
  | content (c : ContentV)
  | content_addition (content_id : ID)
  | function_call (content_id : ID)
  | text (content_id : ID)
  | media (content_id : ID)

/-- Dispatch one operation to the corresponding method. -/
def ServerState.apply (op : ServerOp) (s : ServerState) : StepRes ServerState :=
  match op with
  | .ready cfg => s.ready cfg
  | .end_input => s.end_input
  | .interrupt => s.interrupt
  | .end_output => s.end_output
  | .end_session => s.end_session
  | .reset => s.reset
  | .transcription => s.transcription
  | .stage st => s.stage st
  | .content c => s.content c
  | .content_addition i => s.content_addition i
  | .function_call i => s.function_call i
  | .text i => s.text i
  | .media i => s.media i

/-- The state reached by a fresh `ServerRequestState` after a sequence of
method calls (failed calls keep the state they leave behind). -/
def ServerState.run (ops : List ServerOp) : ServerState :=
  ops.foldl (fun s op => (ServerState.apply op s).2) ServerState.init


/-- The registered content ids, in registration order (the keys of the
`_content_id_to_content` dict). -/
def contentKeys (s : ServerState) : List ID :=
  s._content_id_to_content.map Prod.fst


/-- The implicit invariant: the content-key list of the dict has no
duplicates, and every content id marked as having data is a registered
key. -/
def StateInv (s : ServerState) : Prop :=
  (contentKeys s).Nodup ∧
    ∀ i ∈ s._content_ids_with_data, i ∈ contentKeys s


/-- clients/server.py `Server.event_received_callback`, the inbound
dispatcher.  Config drives `Server.ready` (which substitutes a freshly
generated chat id when the config carries none — the generated uuid is
passed in as `fresh` — and calls `state.ready`); InputEnd drives
`state.end_input`; Interrupt drives `state.interrupt()` immediately
followed by `state.reset()` (lines 87-89; if `interrupt` raises, `reset`
is not reached); SessionEnd drives `state.end_session` and closes the
transport (which holds no request state).  All other inbound events only
reach the application callback. -/
def event_received_callback (fresh : ID) (s : ServerState) (e : Event) :
    StepRes ServerState :=
  match e with
  | .config c => s.ready { c with chat_id := some (c.chat_id.getD fresh) }
  | .inputEnd => s.end_input
  | .interrupt _ =>
      match s.interrupt with
      | (some err, s1) => (some err, s1)
      | (none, s1) => s1.reset
  | .sessionEnd => s.end_session
  | _ => (none, s)

/-! Concrete fixtures used by the closed evaluation theorems. -/

/-- A concrete 16-byte identifier. -/
def idA : ID := ⟨List.replicate 16 0, by simp⟩

/-- A second, distinct identifier. -/
def idB : ID := ⟨1 :: List.replicate 15 0, by simp⟩

/-- A third identifier, used as the generated fresh uuid. -/
def idC : ID := ⟨2 :: List.replicate 15 0, by simp⟩

/-- A `Config()` with all models.py defaults (TEXT input mode). -/
def cfgText : Config := ⟨none, .text, -1, 1, 16000, 2, true, true, true⟩

/-- A config with AUDIO input mode, other fields at their defaults. -/
def cfgAudio : Config := ⟨none, .audio, -1, 1, 16000, 2, true, true, true⟩

/-- Server state after `ready(config)`. -/
def sReady : ServerState := (ServerState.init.ready cfgAudio).2

/-- Server state after `ready(config)` and `end_input()`. -/
def sInput : ServerState := (sReady.end_input).2

/-- Facade run for the open-stream scenario: ready, end_input, one stage,
an audio stream opened on content `idB`, one chunk sent, the stream never
ended. -/
def gOpenStream : ServerFacade :=
  (((((ServerFacade.init.ready cfgAudio idC).2.end_input).2.stage
      ⟨idA, none, "stage", "d"⟩).2.audio_stream idA 1 16000 2 idB).2.media_send
      idB).2

/-- Facade run for the session-reuse scenario: ready, end_input, and a
successful facade `end_output` (which performs the `reset()`). -/
def gAfterRequest : ServerFacade :=
  (((ServerFacade.init.ready cfgText idC).2.end_input).2.end_output).2

/-- Client state after `ready(config)` in TEXT mode. -/
def cReady : ClientState := (ClientState.init.ready cfgText).2

/-- The state a successful `ServerRequestState.interrupt` leaves behind:
interrupted flag set, registries cleared. -/
def interruptedCleared (s : ServerState) : ServerState :=
  { s with _interrupt := true, _stage_id_to_stage := [],
           _content_id_to_content := [], _content_ids_with_data := ∅ }

/-- The state a successful `ServerRequestState.reset` leaves behind:
input/interrupt/output flags cleared, registries cleared, config and
ready flag preserved. -/
def resetCleared (s : ServerState) : ServerState :=
  { s with _input_end := false, _interrupt := false, _output_end := false,
           _stage_id_to_stage := [], _content_id_to_content := [],
           _content_ids_with_data := ∅ }


/-! Round-trip lemmas for the per-field readers. -/

theorem readOptId_round (o : Option ID) : readOptId (some (jOfOptId o)) = .ok o := by
  cases o <;> rfl

theorem readOptStr_round (o : Option String) :
    readOptStr (some (jOfOptStr o)) = .ok o := by
  cases o <;> rfl

theorem readOptNum_round (o : Option Rat) :
    readOptNum (some (jOfOptNum o)) = .ok o := by
  cases o <;> rfl

theorem readInputMode_round (m : InputMode) :
    readInputMode (some (jOfInputMode m)) = .ok m := by
  cases m <;> rfl

theorem readInterruptType_round (t : InterruptType) :
    readInterruptType (some (jOfInterruptType t)) = .ok t := by
  cases t <;> rfl

theorem decodeWord_round (w : Word) : decodeWord (encodeWord w) = .ok w := by
  obtain ⟨t, st, en, sp, sc⟩ := w
  cases t <;> cases st <;> cases en <;> cases sp <;> cases sc <;> rfl

theorem mapDecode_decodeWord_round (ws : List Word) :
    mapDecode decodeWord (ws.map encodeWord) = .ok ws := by
  induction ws with
  | nil => rfl
  | cons w ws ih =>
      simp only [List.map_cons, mapDecode, decodeWord_round, ih]
      rfl

theorem readOptWords_round (o : Option (List Word)) :
    readOptWords (some (match o with
      | none => Json.null
      | some ws => Json.arr (ws.map encodeWord))) = .ok o := by
  cases o with
  | none => rfl
  | some ws => simp only [readOptWords, mapDecode_decodeWord_round]; rfl

theorem exbind_ok (a : α) (f : α → Except DecodeErr β) :
    (Except.ok a >>= f) = f a := rfl

theorem decodeSegment_round (s : Segment) :
    decodeSegment (encodeSegment s) = .ok s := by
  obtain ⟨t, st, en, sp, sc, ws⟩ := s
  simp only [encodeSegment]
  generalize hj : (match ws with
    | none => Json.null
    | some ws => Json.arr (ws.map encodeWord)) = jws
  have h : readOptWords (some jws) = .ok ws := hj ▸ readOptWords_round ws
  cases t <;> cases st <;> cases en <;> cases sp <;> cases sc <;>
    simp [decodeSegment, List.lookup, readOptStr, readOptNum, jOfOptStr,
      jOfOptNum, h, exbind_ok]

theorem mapDecode_decodeSegment_round (ss : List Segment) :
    mapDecode decodeSegment (ss.map encodeSegment) = .ok ss := by
  induction ss with
  | nil => rfl
  | cons s ss ih =>
      simp only [List.map_cons, mapDecode, decodeSegment_round, ih]
      rfl

theorem mapDecode_num_round (v : List Rat) :
    mapDecode (fun e =>
      match e with
      | Json.num q => Except.ok q
      | _ => Except.error DecodeErr.malformed) (v.map Json.num) = .ok v := by
  induction v with
  | nil => rfl
  | cons q v ih =>
      simp only [List.map_cons, mapDecode, ih]
      rfl

theorem readRatList_round (v : List Rat) :
    readRatList (.arr (v.map Json.num)) = .ok v := by
  simp only [readRatList, mapDecode_num_round]

theorem mapDecode_emb_round (kvs : List (String × List Rat)) :
    mapDecode (fun kv : String × Json => do
        let v ← readRatList kv.2
        Except.ok (kv.1, v))
      (kvs.map fun kv : String × List Rat =>
        (kv.1, Json.arr (kv.2.map Json.num))) = .ok kvs := by
  induction kvs with
  | nil => rfl
  | cons kv kvs ih =>
      simp only [List.map_cons, mapDecode, readRatList_round, exbind_ok, ih]

theorem readEmbeddings_round (o : Option (List (String × List Rat))) :
    readEmbeddings (some (match o with
      | none => Json.null
      | some kvs => Json.obj (kvs.map fun kv => (kv.1, .arr (kv.2.map Json.num))))) =
    .ok o := by
  cases o with
  | none => rfl
  | some kvs =>
      simp only [readEmbeddings, mapDecode_emb_round]
      rfl

theorem decodeTranscription_round (t : Transcription) :
    decodeTranscription (some (encodeTranscription t)) = .ok t := by
  obtain ⟨segs, lang, emb⟩ := t
  have he := readEmbeddings_round emb
  simp only [encodeTranscription]
  generalize hj : (match emb with
    | none => Json.null
    | some kvs => Json.obj (kvs.map fun kv : String × List Rat =>
        (kv.1, .arr (kv.2.map Json.num)))) = jemb at he
  cases lang <;>
    simp [decodeTranscription, List.lookup, mapDecode_decodeSegment_round,
      readOptStr, jOfOptStr, he, exbind_ok]

/-- Round trip of the text codec: parsing the JSON encoding of any event
that has one returns the same event. -/
theorem parse_text_event_round (e : Event) (j : Json)
    (h : encode_text_event e = some j) : parse_text_event j = Except.ok e := by
  cases e with
  | config c =>
      simp only [encode_text_event] at h
      injection h with h
      subst h
      obtain ⟨cid, im, sd, nc, sr, sw, ot, oa, ov⟩ := c
      cases cid <;> cases im <;> rfl
  | inputText d =>
      simp only [encode_text_event] at h
      injection h with h
      subst h
      rfl
  | inputMedia d => simp [encode_text_event] at h
  | inputEnd =>
      simp only [encode_text_event] at h
      injection h with h
      subst h
      rfl
  | interrupt t =>
      simp only [encode_text_event] at h
      injection h with h
      subst h
      cases t <;> rfl
  | serverReady cid rid =>
      simp only [encode_text_event] at h
      injection h with h
      subst h
      rfl
  | outputTranscription t =>
      simp only [encode_text_event] at h
      injection h with h
      subst h
      simp [parse_text_event, decodeByType, List.lookup,
        decodeTranscription_round, exbind_ok]
  | outputStage st =>
      simp only [encode_text_event] at h
      injection h with h
      subst h
      obtain ⟨i, pid, ti, de⟩ := st
      cases pid <;> rfl
  | outputTextContent i sid =>
      simp only [encode_text_event] at h
      injection h with h
      subst h
      rfl
  | outputFunctionCallContent i sid =>
      simp only [encode_text_event] at h
      injection h with h
      subst h
      rfl
  | outputAudioContent i sid nc sr sw =>
      simp only [encode_text_event] at h
      injection h with h
      subst h
      rfl
  | outputVideoContent i sid fp wd he =>
      simp only [encode_text_event] at h
      injection h with h
      subst h
      rfl
  | outputContentAddition cid md =>
      simp only [encode_text_event] at h
      injection h with h
      subst h
      rfl
  | outputText cid d =>
      simp only [encode_text_event] at h
      injection h with h
      subst h
      rfl
  | outputMedia cid d => simp [encode_text_event] at h
  | outputFunctionCall cid d =>
      simp only [encode_text_event] at h
      injection h with h
      subst h
      rfl
  | outputEnd =>
      simp only [encode_text_event] at h
      injection h with h
      subst h
      rfl
  | sessionEnd =>
      simp only [encode_text_event] at h
      injection h with h
      subst h
      rfl

/-- Round trip of the server->client binary framing for every payload
length, including zero: 16 uuid bytes then the payload. -/
theorem parse_bytes_event_round_s2c (i : ID) (data : List Nat) :
    parse_bytes_event (outputMediaWireBytes i data) true =
      Except.ok (.outputMedia i data) := by
  obtain ⟨l, hl⟩ := i
  have h0 : (l ++ data).length ≠ 0 := by simp [List.length_append, hl]
  have h16 : ¬(l ++ data).length < 16 := by simp [List.length_append, hl]
  have ht : (l ++ data).take 16 = l := by
    rw [← hl]
    exact List.take_left l data
  have hd : (l ++ data).drop 16 = data := by
    rw [← hl]
    exact List.drop_left l data
  simp only [parse_bytes_event, outputMediaWireBytes]
  rw [if_neg h0]
  simp only [if_true]
  rw [dif_neg h16]
  simp [ht, hd]

/-- Round trip of the client->server binary framing for every non-empty
payload: the frame is the payload itself. -/
theorem parse_bytes_event_round_c2s (data : List Nat) (h : data ≠ []) :
    parse_bytes_event (inputMediaWireBytes data) false =
      Except.ok (.inputMedia data) := by
  simp only [parse_bytes_event, inputMediaWireBytes]
  rw [if_neg (by simpa using h)]
  simp

/-- Replacing `_output_end` by `false` is the identity when the flag is
already false. -/
theorem setOutputFalse_self (s : ServerState) (h : s._output_end = false) :
    { s with _output_end := false } = s := by
  cases s
  simp only at h
  subst h
  rfl

theorem interrupt_base_pair (s : ServerState) (e : ChatErr) (s1 : ServerState)
    (h : s.interrupt_base = (some e, s1)) : s1 = s := by
  unfold ServerState.interrupt_base at h
  split at h
  · injection h with h1 h2
    exact h2.symm
  · exact Prod.noConfusion h fun h1 _ => Option.noConfusion h1

theorem reset_base_pair (s : ServerState) (e : ChatErr) (s1 : ServerState)
    (h : s.reset_base = (some e, s1)) : s1 = s := by
  unfold ServerState.reset_base at h
  split at h
  · injection h with h1 h2
    exact h2.symm
  · exact Prod.noConfusion h fun h1 _ => Option.noConfusion h1

theorem end_output_base_pair_err (s : ServerState) (e : ChatErr)
    (s1 : ServerState) (h : s.end_output_base = (some e, s1)) : s1 = s := by
  unfold ServerState.end_output_base at h
  repeat' split at h
  all_goals
    first
      | (injection h with h1 h2; exact h2.symm)
      | exact Prod.noConfusion h fun h1 _ => Option.noConfusion h1

theorem end_output_base_pair_ok (s : ServerState) (s1 : ServerState)
    (h : s.end_output_base = (none, s1)) :
    s._output_end = false ∧ s1 = { s with _output_end := true } := by
  unfold ServerState.end_output_base at h
  repeat' split at h
  all_goals
    first
      | exact Prod.noConfusion h fun h1 _ => Option.noConfusion h1
      | (injection h with h1 h2
         refine ⟨by simp_all, h2.symm⟩)

/-- Bridge from pair-form no-mutation lemmas to the projection form. -/
theorem pair_cases {X : StepRes ServerState} {s : ServerState}
    (hGuard : ∀ e1 s1, X = (some e1, s1) → s1 = s) (e : ChatErr)
    (h : X.1 = some e) : X.2 = s := by
  rcases hX : X with ⟨r1, r2⟩
  rw [hX] at h
  rw [show r1 = some e from h] at hX
  exact hGuard e r2 hX

theorem ready_pair (s : ServerState) (cfg : Config) (e : ChatErr)
    (s1 : ServerState) (h : s.ready cfg = (some e, s1)) : s1 = s := by
  unfold ServerState.ready at h
  repeat' split at h
  all_goals
    first
      | (injection h with h1 h2; exact h2.symm)
      | exact Prod.noConfusion h fun h1 _ => Option.noConfusion h1

theorem end_input_pair (s : ServerState) (e : ChatErr)
    (s1 : ServerState) (h : s.end_input = (some e, s1)) : s1 = s := by
  unfold ServerState.end_input at h
  repeat' split at h
  all_goals
    first
      | (injection h with h1 h2; exact h2.symm)
      | exact Prod.noConfusion h fun h1 _ => Option.noConfusion h1

theorem end_session_pair (s : ServerState) (e : ChatErr)
    (s1 : ServerState) (h : s.end_session = (some e, s1)) : s1 = s := by
  unfold ServerState.end_session at h
  repeat' split at h
  all_goals
    first
      | (injection h with h1 h2; exact h2.symm)
      | exact Prod.noConfusion h fun h1 _ => Option.noConfusion h1

theorem transcription_pair (s : ServerState) (e : ChatErr)
    (s1 : ServerState) (h : s.transcription = (some e, s1)) : s1 = s := by
  unfold ServerState.transcription at h
  repeat' split at h
  all_goals
    injection h with h1 h2
  all_goals
    exact h2.symm

theorem stage_pair (s : ServerState) (st : Stage) (e : ChatErr)
    (s1 : ServerState) (h : s.stage st = (some e, s1)) : s1 = s := by
  unfold ServerState.stage at h
  repeat' split at h
  all_goals
    first
      | (injection h with h1 h2; exact h2.symm)
      | exact Prod.noConfusion h fun h1 _ => Option.noConfusion h1

theorem content_pair (s : ServerState) (c : ContentV) (e : ChatErr)
    (s1 : ServerState) (h : s.content c = (some e, s1)) : s1 = s := by
  unfold ServerState.content at h
  repeat' split at h
  all_goals
    first
      | (injection h with h1 h2; exact h2.symm)
      | exact Prod.noConfusion h fun h1 _ => Option.noConfusion h1

theorem content_addition_pair (s : ServerState) (i : ID) (e : ChatErr)
    (s1 : ServerState) (h : s.content_addition i = (some e, s1)) : s1 = s := by
  unfold ServerState.content_addition at h
  repeat' split at h
  all_goals
    injection h with h1 h2
  all_goals
    exact h2.symm

theorem function_call_pair (s : ServerState) (i : ID) (e : ChatErr)
    (s1 : ServerState) (h : s.function_call i = (some e, s1)) : s1 = s := by
  unfold ServerState.function_call at h
  repeat' split at h
  all_goals
    first
      | (injection h with h1 h2; exact h2.symm)
      | exact Prod.noConfusion h fun h1 _ => Option.noConfusion h1

theorem text_pair (s : ServerState) (i : ID) (e : ChatErr)
    (s1 : ServerState) (h : s.text i = (some e, s1)) : s1 = s := by
  unfold ServerState.text at h
  repeat' split at h
  all_goals
    first
      | (injection h with h1 h2; exact h2.symm)
      | exact Prod.noConfusion h fun h1 _ => Option.noConfusion h1

theorem media_pair (s : ServerState) (i : ID) (e : ChatErr)
    (s1 : ServerState) (h : s.media i = (some e, s1)) : s1 = s := by
  unfold ServerState.media at h
  repeat' split at h
  all_goals
    first
      | (injection h with h1 h2; exact h2.symm)
      | exact Prod.noConfusion h fun h1 _ => Option.noConfusion h1

theorem interrupt_pair (s : ServerState) (e : ChatErr)
    (s1 : ServerState) (h : s.interrupt = (some e, s1)) : s1 = s := by
  unfold ServerState.interrupt at h
  split at h
  · next e2 s2 heq =>
      injection h with h1 h2
      subst h2
      exact interrupt_base_pair s e2 _ heq
  · exact Prod.noConfusion h fun h1 _ => Option.noConfusion h1

theorem reset_pair (s : ServerState) (e : ChatErr)
    (s1 : ServerState) (h : s.reset = (some e, s1)) : s1 = s := by
  unfold ServerState.reset at h
  split at h
  · next e2 s2 heq =>
      injection h with h1 h2
      subst h2
      exact reset_base_pair s e2 _ heq
  · exact Prod.noConfusion h fun h1 _ => Option.noConfusion h1

theorem end_output_pair (s : ServerState) (e : ChatErr)
    (s1 : ServerState) (h : s.end_output = (some e, s1)) : s1 = s := by
  unfold ServerState.end_output at h
  split at h
  · next e2 s2 heq =>
      injection h with h1 h2
      subst h2
      exact end_output_base_pair_err s e2 _ heq
  · next s2 heq =>
      obtain ⟨hoe, hs2⟩ := end_output_base_pair_ok s s2 heq
      split at h
      · injection h with h1 h2
        subst h2
        subst hs2
        exact setOutputFalse_self s hoe
      · exact Prod.noConfusion h fun h1 _ => Option.noConfusion h1

/-- No state-machine operation mutates the state when it fails: the state
observable after a raised error is the state before the call. -/
theorem apply_error_frozen (op : ServerOp) (s : ServerState) (e : ChatErr)
    (h : (ServerState.apply op s).1 = some e) :
    (ServerState.apply op s).2 = s := by
  cases op with
  | ready cfg => exact pair_cases (fun e1 s1 hp => ready_pair s cfg e1 s1 hp) e h
  | end_input => exact pair_cases (fun e1 s1 hp => end_input_pair s e1 s1 hp) e h
  | interrupt => exact pair_cases (fun e1 s1 hp => interrupt_pair s e1 s1 hp) e h
  | end_output => exact pair_cases (fun e1 s1 hp => end_output_pair s e1 s1 hp) e h
  | end_session => exact pair_cases (fun e1 s1 hp => end_session_pair s e1 s1 hp) e h
  | reset => exact pair_cases (fun e1 s1 hp => reset_pair s e1 s1 hp) e h
  | transcription => exact pair_cases (fun e1 s1 hp => transcription_pair s e1 s1 hp) e h
  | stage st => exact pair_cases (fun e1 s1 hp => stage_pair s st e1 s1 hp) e h
  | content c => exact pair_cases (fun e1 s1 hp => content_pair s c e1 s1 hp) e h
  | content_addition i => exact pair_cases (fun e1 s1 hp => content_addition_pair s i e1 s1 hp) e h
  | function_call i => exact pair_cases (fun e1 s1 hp => function_call_pair s i e1 s1 hp) e h
  | text i => exact pair_cases (fun e1 s1 hp => text_pair s i e1 s1 hp) e h
  | media i => exact pair_cases (fun e1 s1 hp => media_pair s i e1 s1 hp) e h

theorem lookup_none_notin {β : Type} (l : List (ID × β)) (a : ID)
    (h : l.lookup a = none) : a ∉ l.map Prod.fst := by
  induction l with
  | nil => simp
  | cons kv t ih =>
      obtain ⟨k, v⟩ := kv
      simp only [List.lookup] at h
      by_cases hak : a = k
      · subst hak
        simp at h
      · simp only [List.map_cons, List.mem_cons]
        rw [show (a == k) = false by simpa using hak] at h
        rintro (rfl | hmem)
        · exact hak rfl
        · exact ih h hmem

theorem lookup_isSome_mem {β : Type} (l : List (ID × β)) (a : ID)
    (h : (l.lookup a).isSome = true) : a ∈ l.map Prod.fst := by
  induction l with
  | nil => simp [List.lookup] at h
  | cons kv t ih =>
      obtain ⟨k, v⟩ := kv
      simp only [List.lookup] at h
      by_cases hak : a = k
      · subst hak
        simp
      · rw [show (a == k) = false by simpa using hak] at h
        simp only [List.map_cons, List.mem_cons]
        exact Or.inr (ih h)

theorem inv_init : StateInv ServerState.init := by
  constructor
  · simp [contentKeys, ServerState.init]
  · intro i hi
    simp [ServerState.init] at hi

/-- Every single operation preserves the invariant. -/
theorem inv_step (op : ServerOp) (s : ServerState) (h : StateInv s) :
    StateInv (ServerState.apply op s).2 := by
  obtain ⟨hnd, hsub⟩ := h
  cases op with
  | ready cfg =>
      simp only [ServerState.apply]
      unfold ServerState.ready
      repeat' split
      all_goals exact ⟨hnd, hsub⟩
  | end_input =>
      simp only [ServerState.apply]
      unfold ServerState.end_input
      repeat' split
      all_goals exact ⟨hnd, hsub⟩
  | interrupt =>
      simp only [ServerState.apply]
      unfold ServerState.interrupt
      split
      · next e1 s1 heq =>
          rw [interrupt_base_pair s e1 s1 heq]
          exact ⟨hnd, hsub⟩
      · constructor
        · simp [contentKeys]
        · intro i hi
          simp at hi
  | end_output =>
      simp only [ServerState.apply]
      unfold ServerState.end_output
      split
      · next e1 s1 heq =>
          rw [end_output_base_pair_err s e1 s1 heq]
          exact ⟨hnd, hsub⟩
      · next s1 heq =>
          obtain ⟨hoe, hs1⟩ := end_output_base_pair_ok s s1 heq
          subst hs1
          split
          · exact ⟨hnd, hsub⟩
          · exact ⟨hnd, hsub⟩
  | end_session =>
      simp only [ServerState.apply]
      unfold ServerState.end_session
      repeat' split
      all_goals exact ⟨hnd, hsub⟩
  | reset =>
      simp only [ServerState.apply]
      unfold ServerState.reset
      split
      · next e1 s1 heq =>
          rw [reset_base_pair s e1 s1 heq]
          exact ⟨hnd, hsub⟩
      · constructor
        · simp [contentKeys]
        · intro i hi
          simp at hi
  | transcription =>
      simp only [ServerState.apply]
      unfold ServerState.transcription
      repeat' split
      all_goals exact ⟨hnd, hsub⟩
  | stage st =>
      simp only [ServerState.apply]
      unfold ServerState.stage
      repeat' split
      all_goals exact ⟨hnd, hsub⟩
  | content c =>
      simp only [ServerState.apply]
      unfold ServerState.content
      repeat' split
      all_goals try exact ⟨hnd, hsub⟩
      next hdup =>
        have hl : s._content_id_to_content.lookup c.id = none := by
          unfold ServerState.has_content at hdup
          cases hl : s._content_id_to_content.lookup c.id with
          | none => rfl
          | some v => rw [hl] at hdup; simp at hdup
        have hnot : c.id ∉ contentKeys s := lookup_none_notin _ _ hl
        constructor
        · have hnew : (contentKeys s ++ [c.id]).Nodup := by
            rw [List.nodup_append]
            refine ⟨hnd, List.nodup_singleton _, ?_⟩
            intro a ha hb
            simp only [List.mem_singleton] at hb
            subst hb
            exact hnot ha
          simpa [contentKeys, List.map_append] using hnew
        · intro i hi
          have hmem := hsub i hi
          simp only [contentKeys, List.map_append]
          exact List.mem_append_left _ hmem
  | content_addition i =>
      simp only [ServerState.apply]
      unfold ServerState.content_addition
      repeat' split
      all_goals exact ⟨hnd, hsub⟩
  | function_call i =>
      simp only [ServerState.apply]
      unfold ServerState.function_call
      repeat' split
      all_goals try exact ⟨hnd, hsub⟩
      all_goals
        (rename_i hhas hmem
         have hs : (s.has_content i).isSome = true := by
           revert hhas
           cases (s.has_content i).isSome <;> simp
         have hmemk : i ∈ contentKeys s := by
           unfold ServerState.has_content at hs
           exact lookup_isSome_mem _ _ hs
         constructor
         · exact hnd
         · intro j hj
           rcases Finset.mem_insert.mp hj with rfl | hj2
           · exact hmemk
           · exact hsub j hj2)
  | text i =>
      simp only [ServerState.apply]
      unfold ServerState.text
      repeat' split
      all_goals try exact ⟨hnd, hsub⟩
      all_goals
        (rename_i hhas
         have hs : (s.has_content i).isSome = true := by
           revert hhas
           cases (s.has_content i).isSome <;> simp
         have hmemk : i ∈ contentKeys s := by
           unfold ServerState.has_content at hs
           exact lookup_isSome_mem _ _ hs
         constructor
         · exact hnd
         · intro j hj
           rcases Finset.mem_insert.mp hj with rfl | hj2
           · exact hmemk
           · exact hsub j hj2)
  | media i =>
      simp only [ServerState.apply]
      unfold ServerState.media
      repeat' split
      all_goals try exact ⟨hnd, hsub⟩
      all_goals
        (rename_i hhas
         have hs : (s.has_content i).isSome = true := by
           revert hhas
           cases (s.has_content i).isSome <;> simp
         have hmemk : i ∈ contentKeys s := by
           unfold ServerState.has_content at hs
           exact lookup_isSome_mem _ _ hs
         constructor
         · exact hnd
         · intro j hj
           rcases Finset.mem_insert.mp hj with rfl | hj2
           · exact hmemk
           · exact hsub j hj2)

/-- The invariant holds in every reachable state. -/
theorem inv_run (ops : List ServerOp) : StateInv (ServerState.run ops) := by
  have haux : ∀ (l : List ServerOp) (s : ServerState), StateInv s →
      StateInv (l.foldl (fun s op => (ServerState.apply op s).2) s) := by
    intro l
    induction l with
    | nil => intro s hs; exact hs
    | cons op t ih =>
        intro s hs
        exact ih _ (inv_step op s hs)
  exact haux ops ServerState.init inv_init

/-- Under the invariant, the size comparison of `end_output` (set
cardinality versus dict length) is exactly the check that every
registered content id has data. -/
theorem card_len_iff (s : ServerState) (h : StateInv s) :
    (s._content_ids_with_data.card = s._content_id_to_content.length ↔
      ∀ k ∈ contentKeys s, k ∈ s._content_ids_with_data) := by
  obtain ⟨hnd, hsub⟩ := h
  have hlenk : (contentKeys s).length = s._content_id_to_content.length := by
    simp [contentKeys]
  have hsubK : s._content_ids_with_data ⊆ (contentKeys s).toFinset := by
    intro i hi
    exact List.mem_toFinset.mpr (hsub i hi)
  have hcardK : (contentKeys s).toFinset.card = s._content_id_to_content.length := by
    rw [List.toFinset_card_of_nodup hnd, hlenk]
  constructor
  · intro hcard k hk
    have heq : s._content_ids_with_data = (contentKeys s).toFinset := by
      apply Finset.eq_of_subset_of_card_le hsubK
      rw [hcardK, hcard]
    rw [heq]
    exact List.mem_toFinset.mpr hk
  · intro hall
    have heq : s._content_ids_with_data = (contentKeys s).toFinset := by
      apply Finset.Subset.antisymm hsubK
      intro k hk
      exact hall k (List.mem_toFinset.mp hk)
    rw [heq, hcardK]

/-- Evaluating `end_output` under the phase guards: the base call succeeds and the
whole call reduces to the completeness comparison. -/
theorem end_output_guarded (s : ServerState)
    (hit : s._interrupt = false) (hin : s._input_end = true)
    (hout : s._output_end = false) :
    s.end_output =
      if s._content_ids_with_data.card ≠ s._content_id_to_content.length then
        (some .incompleteContent, s)
      else (none, { s with _output_end := true }) := by
  have hbase : s.end_output_base = (none, { s with _output_end := true }) := by
    unfold ServerState.end_output_base
    rw [if_neg (by simp [hit]), if_neg (by simp [hin]), if_neg (by simp [hout])]
  unfold ServerState.end_output
  rw [hbase]
  show (if s._content_ids_with_data.card ≠ s._content_id_to_content.length then
          (some ChatErr.incompleteContent, { s with _output_end := false })
        else (none, ({ s with _output_end := true } : ServerState))) =
      (if s._content_ids_with_data.card ≠ s._content_id_to_content.length then
          (some ChatErr.incompleteContent, s)
        else (none, { s with _output_end := true }))
  by_cases hc :
      s._content_ids_with_data.card = s._content_id_to_content.length
  · rw [if_neg (by simpa using hc), if_neg (by simpa using hc)]
  · rw [if_pos hc, if_pos hc]
    exact congrArg (fun z => (some ChatErr.incompleteContent, z))
      (setOutputFalse_self s hout)

/-!
Claim theorems.
-/

/-- Claim C8 (confirmed): decoding a zero-length binary frame fails with
the EmptyFrame decode error in both directions (uuid-parsing and not) and
never returns an event. -/
theorem claim_C8_empty_frame (parse_media_uuid : Bool) :
    parse_bytes_event [] parse_media_uuid = .error .emptyFrame := by
  cases parse_media_uuid <;> rfl

/-- Claim C3, evaluation at the failing input (code_bug): inserting a
stage whose parent id equals its own id (a one-step cycle) does not fail
with the CircularHierarchy validation error; the parent-chain walk looks
the unregistered id up in the stage dict and a raw KeyError escapes.  The
stage is not registered. -/
theorem claim_C3_self_parent_keyerror :
    sInput.stage ⟨idA, some idA, "t", "d"⟩ = (some (.keyError idA), sInput) := by
  decide

/-- Claim C4, evaluation at the failing input (code_bug): inserting a
stage whose parent id is not a registered stage does not fail with the
UnknownReference validation error; the walk raises a raw KeyError.  The
stage is not registered. -/
theorem claim_C4_unknown_parent_keyerror :
    sInput.stage ⟨idA, some idB, "t", "d"⟩ = (some (.keyError idB), sInput) := by
  decide

/-- Claim C6 (confirmed): every state-machine operation that fails leaves
the state exactly as it was before the call — no partial registration, no
altered entries. -/
theorem claim_C6_failure_atomic (op : ServerOp) (s : ServerState)
    (e : ChatErr) (h : (ServerState.apply op s).1 = some e) :
    (ServerState.apply op s).2 = s :=
  apply_error_frozen op s e h

/-- Witness for C6: `end_input` on a fresh state fails (NotReady) and the
state afterwards is the fresh state. -/
theorem claim_C6_failure_atomic_witness :
    (ServerState.apply ServerOp.end_input ServerState.init).1 =
      some ChatErr.notReady ∧
    (ServerState.apply ServerOp.end_input ServerState.init).2 =
      ServerState.init :=
  ⟨by decide,
   claim_C6_failure_atomic ServerOp.end_input ServerState.init
     ChatErr.notReady (by decide)⟩

/-- Claim C10 (confirmed): in every reachable server state the set of
content ids with data is a subset of the registered content keys, and
therefore the size comparison in `end_output` is equivalent to "every
registered content id has data". -/
theorem claim_C10_with_data_subset (ops : List ServerOp) :
    (∀ i ∈ (ServerState.run ops)._content_ids_with_data,
        i ∈ contentKeys (ServerState.run ops)) ∧
    ((ServerState.run ops)._content_ids_with_data.card =
        (ServerState.run ops)._content_id_to_content.length ↔
      ∀ k ∈ contentKeys (ServerState.run ops),
        k ∈ (ServerState.run ops)._content_ids_with_data) :=
  ⟨(inv_run ops).2, card_len_iff _ (inv_run ops)⟩

/-- Witness for C10 at a concrete run. -/
theorem claim_C10_with_data_subset_witness :
    (∀ i ∈ (ServerState.run
        [ServerOp.ready cfgAudio, ServerOp.end_input])._content_ids_with_data,
        i ∈ contentKeys (ServerState.run
          [ServerOp.ready cfgAudio, ServerOp.end_input])) ∧
    ((ServerState.run
        [ServerOp.ready cfgAudio, ServerOp.end_input])._content_ids_with_data.card =
        (ServerState.run
          [ServerOp.ready cfgAudio, ServerOp.end_input])._content_id_to_content.length ↔
      ∀ k ∈ contentKeys (ServerState.run
          [ServerOp.ready cfgAudio, ServerOp.end_input]),
        k ∈ (ServerState.run
          [ServerOp.ready cfgAudio, ServerOp.end_input])._content_ids_with_data) :=
  claim_C10_with_data_subset [ServerOp.ready cfgAudio, ServerOp.end_input]

/-- Claim C9 (confirmed): on a ready, non-interrupted TEXT-mode client
request with input not ended, the first `text()` succeeds (and records the
send), and any call in a state where the text flag is already set fails
with TextAlreadySent. -/
theorem claim_C9_single_text (s : ClientState) (cfg : Config)
    (hc : s._config = some cfg) (hm : cfg.input_mode = InputMode.text)
    (hr : s._ready = true) (hi : s._interrupt = false)
    (he : s._input_end = false) (ht : s._text = false) :
    (s.text).1 = none ∧ (s.text).2 = { s with _text := true } ∧
    (∀ s2 : ClientState, s2._config = some cfg → s2._ready = true →
      s2._interrupt = false → s2._input_end = false → s2._text = true →
      (s2.text).1 = some ChatErr.textAlreadySent) := by
  refine ⟨?_, ?_, ?_⟩
  · simp [ClientState.text, hc, hm, hr, hi, he, ht]
  · simp [ClientState.text, hc, hm, hr, hi, he, ht]
  · intro s2 hc2 hr2 hi2 he2 ht2
    simp [ClientState.text, hc2, hm, hr2, hi2, he2, ht2]

/-- Witness for C9: after `ready`, the first `text()` succeeds and an
immediate second `text()` fails TextAlreadySent. -/
theorem claim_C9_single_text_witness :
    (cReady.text).1 = none ∧
    (((cReady.text).2).text).1 = some ChatErr.textAlreadySent := by
  have h := claim_C9_single_text cReady cfgText (by decide) (by decide)
    (by decide) (by decide) (by decide) (by decide)
  exact ⟨h.1, h.2.2 ((cReady.text).2) (by decide) (by decide) (by decide)
    (by decide) (by decide)⟩

/-- Claim C7 counterexample (corrected): an InputMedia event with empty
payload is constructible; its wire encoding (the raw payload bytes sent by
the client media stream) is a zero-length frame, and decoding it fails
EmptyFrame instead of returning the event. -/
theorem claim_C7_roundtrip_counterexample :
    parse_bytes_event (inputMediaWireBytes []) false =
      Except.error DecodeErr.emptyFrame ∧
    parse_bytes_event (inputMediaWireBytes []) false ≠
      Except.ok (Event.inputMedia []) :=
  ⟨rfl, fun h => Except.noConfusion h⟩

/-- Claim C7 amended (round-trip law): every event with a JSON text-frame
encoding decodes back to itself; every server->client binary frame
round-trips for every payload length including zero; every client->server
binary frame round-trips exactly for non-empty payloads. -/
theorem claim_C7_roundtrip :
    (∀ (e : Event) (j : Json), encode_text_event e = some j →
        parse_text_event j = Except.ok e) ∧
    (∀ (i : ID) (data : List Nat),
        parse_bytes_event (outputMediaWireBytes i data) true =
          Except.ok (.outputMedia i data)) ∧
    (∀ data : List Nat, data ≠ [] →
        parse_bytes_event (inputMediaWireBytes data) false =
          Except.ok (.inputMedia data)) :=
  ⟨parse_text_event_round, parse_bytes_event_round_s2c,
   parse_bytes_event_round_c2s⟩

/-- Witness for C7 at concrete frames. -/
theorem claim_C7_roundtrip_witness :
    parse_text_event (Json.obj [("event_type", Json.int 3)]) =
      Except.ok Event.inputEnd ∧
    parse_bytes_event (outputMediaWireBytes idA []) true =
      Except.ok (Event.outputMedia idA []) ∧
    parse_bytes_event (inputMediaWireBytes [7]) false =
      Except.ok (Event.inputMedia [7]) :=
  ⟨claim_C7_roundtrip.1 Event.inputEnd _ rfl,
   claim_C7_roundtrip.2.1 idA [],
   claim_C7_roundtrip.2.2 [7] (by simp)⟩

/-- Claim C1 counterexample (corrected): a facade run in which an audio
stream was opened (a send handle created) and never ended, yet
`end_output()` succeeds — the state machine does not track open streams,
so "no stream is open" is not part of the success condition and no
StreamStillOpen failure exists. -/
theorem claim_C1_counterexample :
    gOpenStream.openStreams = [idB] ∧
    (gOpenStream.st.end_output).1 = none := by
  decide

/-- Claim C1 amended: for a state with input ended, output not ended and
not interrupted that satisfies the reachable-state invariant,
`end_output()` succeeds iff every registered content id is associated with
data; when it fails, the error is the incomplete-content error
(ChatApiStateError "All content must have data ...") and the output-ended
flag is false afterwards (the whole state is as before). -/
theorem claim_C1_end_output (s : ServerState)
    (hit : s._interrupt = false) (hin : s._input_end = true)
    (hout : s._output_end = false) (hinv : StateInv s) :
    ((s.end_output).1 = none ↔
      ∀ k ∈ contentKeys s, k ∈ s._content_ids_with_data) ∧
    ((s.end_output).1 ≠ none →
      (s.end_output).1 = some ChatErr.incompleteContent ∧
      (s.end_output).2._output_end = false ∧ (s.end_output).2 = s) := by
  have hg := end_output_guarded s hit hin hout
  by_cases hc :
      s._content_ids_with_data.card = s._content_id_to_content.length
  · rw [hg, if_neg (by simpa using hc)]
    refine ⟨⟨fun _ => (card_len_iff s hinv).mp hc, fun _ => rfl⟩, ?_⟩
    intro hne
    exact absurd rfl hne
  · rw [hg, if_pos (by simpa using hc)]
    refine ⟨⟨fun habs => absurd habs (by simp), ?_⟩, ?_⟩
    · intro hall
      exact absurd ((card_len_iff s hinv).mpr hall) hc
    · intro _
      exact ⟨rfl, hout, rfl⟩

/-- Witness for C1 amended: with no content registered, `end_output`
succeeds after ready + end_input. -/
theorem claim_C1_end_output_witness :
    (sInput.end_output).1 = none :=
  (claim_C1_end_output sInput (by decide) (by decide) (by decide)
    ⟨by decide, by decide⟩).1.mpr (by decide)

/-- Claim C2 counterexample (corrected): an interrupt delivered through
the inbound dispatcher is followed by `reset()`, which clears the
interrupted flag — afterwards the request is not terminal and `end_input`
succeeds instead of failing Interrupted. -/
theorem claim_C2_counterexample :
    (event_received_callback idC sReady (.interrupt .user)).2._interrupt =
      false ∧
    ((event_received_callback idC sReady (.interrupt .user)).2.end_input).1 =
      none := by
  decide

/-- Claim C2 amended: a direct `interrupt()` on a non-interrupted request
succeeds, clears the stage/content/data registries, sets the interrupted
flag, and every protocol-validated operation afterwards fails with
Interrupted.  An interrupt delivered through the inbound dispatcher also
clears the registries, but the dispatcher immediately resets the state, so
the interrupted flag is false afterwards and subsequent operations are not
rejected with Interrupted. -/
theorem claim_C2_interrupt (s : ServerState) (hni : s._interrupt = false) :
    (s.interrupt).1 = none ∧
    (s.interrupt).2._interrupt = true ∧
    (s.interrupt).2._stage_id_to_stage = [] ∧
    (s.interrupt).2._content_id_to_content = [] ∧
    (s.interrupt).2._content_ids_with_data = ∅ ∧
    (∀ st, ((s.interrupt).2.stage st).1 = some ChatErr.interrupted) ∧
    (∀ c, ((s.interrupt).2.content c).1 = some ChatErr.interrupted) ∧
    (∀ i, ((s.interrupt).2.text i).1 = some ChatErr.interrupted) ∧
    (∀ i, ((s.interrupt).2.media i).1 = some ChatErr.interrupted) ∧
    (∀ i, ((s.interrupt).2.function_call i).1 = some ChatErr.interrupted) ∧
    (∀ cfg, ((s.interrupt).2.ready cfg).1 = some ChatErr.interrupted) ∧
    ((s.interrupt).2.end_input).1 = some ChatErr.interrupted ∧
    ((s.interrupt).2.end_output).1 = some ChatErr.interrupted ∧
    (∀ (fresh : ID) (t : InterruptType), s._session_end = false →
      (event_received_callback fresh s (.interrupt t)).2._interrupt = false ∧
      (event_received_callback fresh s
          (.interrupt t)).2._stage_id_to_stage = [] ∧
      (event_received_callback fresh s
          (.interrupt t)).2._content_id_to_content = [] ∧
      (event_received_callback fresh s
          (.interrupt t)).2._content_ids_with_data = ∅) := by
  have hs : s.interrupt = (none, interruptedCleared s) := by
    unfold ServerState.interrupt ServerState.interrupt_base
      interruptedCleared
    rw [if_neg (by simp [hni])]
  refine ⟨by rw [hs], by rw [hs]; rfl, by rw [hs]; rfl, by rw [hs]; rfl,
    by rw [hs]; rfl, ?_, ?_, ?_, ?_, ?_, ?_, ?_, ?_, ?_⟩
  · intro st
    rw [hs]
    rfl
  · intro c
    rw [hs]
    rfl
  · intro i
    rw [hs]
    rfl
  · intro i
    rw [hs]
    rfl
  · intro i
    rw [hs]
    rfl
  · intro cfg
    rw [hs]
    rfl
  · rw [hs]
    rfl
  · rw [hs]
    rfl
  · intro fresh t hse
    have hd : event_received_callback fresh s (.interrupt t) =
        (interruptedCleared s).reset := by
      simp only [event_received_callback, hs]
    have hrst : (interruptedCleared s).reset =
        (none, resetCleared s) := by
      unfold ServerState.reset ServerState.reset_base interruptedCleared
        resetCleared
      rw [if_neg (by simp [hse])]
    rw [hd, hrst]
    exact ⟨rfl, rfl, rfl, rfl⟩

/-- Witness for C2 amended: after a direct interrupt on the post-ready
state, `end_input` fails Interrupted. -/
theorem claim_C2_interrupt_witness :
    ((ServerState.interrupt sReady).2.end_input).1 =
      some ChatErr.interrupted :=
  (claim_C2_interrupt sReady (by decide)).2.2.2.2.2.2.2.2.2.2.2.1

/-- Claim C5 counterexample (corrected): after a completed request
(ready, end_input, facade end_output — which performs the reset), the
ready flag is still set, so the first `ready(config)` of the next request
already fails AlreadyReady: it does not succeed "exactly once again". -/
theorem claim_C5_counterexample :
    gAfterRequest.st._ready = true ∧
    (gAfterRequest.st.ready cfgText).1 = some ChatErr.alreadyReady := by
  decide

/-- Claim C5 amended: outside of a finished session, `reset()` clears the
per-request registries and the input/interrupt/output flags while
preserving the config and the ready flag (the session-level identity);
consequently a session hosts subsequent requests without a new
ready exchange, and if the state was ready, `ready(config)` after the
reset fails AlreadyReady immediately. -/
theorem claim_C5_reset (s : ServerState) (hse : s._session_end = false) :
    (s.reset).1 = none ∧
    (s.reset).2._stage_id_to_stage = [] ∧
    (s.reset).2._content_id_to_content = [] ∧
    (s.reset).2._content_ids_with_data = ∅ ∧
    (s.reset).2._input_end = false ∧
    (s.reset).2._interrupt = false ∧
    (s.reset).2._output_end = false ∧
    (s.reset).2._config = s._config ∧
    (s.reset).2._ready = s._ready ∧
    (s._ready = true →
      ∀ cfg, ((s.reset).2.ready cfg).1 = some ChatErr.alreadyReady) := by
  have hr : s.reset =
      (none, { s with _input_end := false, _interrupt := false,
                      _output_end := false, _stage_id_to_stage := [],
                      _content_id_to_content := [],
                      _content_ids_with_data := ∅ }) := by
    unfold ServerState.reset ServerState.reset_base
    rw [if_neg (by simp [hse])]
  refine ⟨by rw [hr], by rw [hr], by rw [hr], by rw [hr], by rw [hr],
    by rw [hr], by rw [hr], by rw [hr], by rw [hr], ?_⟩
  intro hry cfg
  rw [hr]
  simp [ServerState.ready, hry]

/-- Witness for C5 amended: after reset of the post-ready state, a new
`ready(config)` fails AlreadyReady at once. -/
theorem claim_C5_reset_witness :
    ((ServerState.reset sReady).2.ready cfgText).1 =
      some ChatErr.alreadyReady :=
  (claim_C5_reset sReady (by decide)).2.2.2.2.2.2.2.2.2 (by decide) cfgText


end ChatApi
